import Mathlib

/-!
# Verification of the Ralph orchestrator (`ralph.py`)

A shallow embedding of the Ralph Wiggum orchestration loop:

* `LLMConfig`, `load_config` embed the config dataclass and `load_config`;
* `detect_provider`, `ollama_model_match`, `chat_dispatch` embed
  `RalphLLMClient.detect_provider`, the model-name matching of
  `RalphLLMClient._check_ollama`, and the provider dispatch of
  `RalphLLMClient.chat`;
* `RalphState`, `archive_previous_run`, `init_progress_file`,
  `track_current_branch`, `setup` embed the file-state manipulation done by
  `RalphOrchestrator` at run startup;
* `run_loop`, `ralph_run`, `mainRun` embed the bounded iteration loop of
  `RalphOrchestrator.run` and its composition with provider detection and
  config loading.

External effects are modelled by oracles: the three availability probes are
booleans, and the outcome of one provider call at iteration `i` is
`backend i : ChatOutcome` (`ok output`, or `err` for any raised exception).
Observable behaviour of a run is its exit code together with a trace of
events (`Event.chat i` for the chat call of iteration `i`, `Event.sleep 2`
for the fixed pacing delay `time.sleep(2)`).
-/

/-- Model of Python `str.startswith`: does the character list `s` start with
`pre`? Structural recursion so that concrete instances reduce. -/
def pyStartsWithList : List Char → List Char → Bool
  | _, [] => true
  | [], _ :: _ => false
  | c :: s, p :: ps => c = p && pyStartsWithList s ps

/-- Model of Python `str.startswith` on strings. -/
def pyStartsWith (s pre : String) : Bool :=
  pyStartsWithList s.toList pre.toList

/-- Model of Python substring containment (`sub in s`) on character lists. -/
def pyContainsList : List Char → List Char → Bool
  | s, sub =>
    if pyStartsWithList s sub then true
    else
      match s with
      | [] => false
      | _ :: rest => pyContainsList rest sub

/-- Model of Python substring containment (`sub in s`) on strings. -/
def pyContains (s sub : String) : Bool :=
  pyContainsList s.toList sub.toList

/-- Model of Python `str.replace(old, new)` on character lists, fuelled so the
recursion is structural: replace non-overlapping occurrences of `old` left to
right. With `fuel ≥ s.length` and `old ≠ []` this is exactly Python's
semantics (`old = []` never occurs in the program, whose pattern is
`"ralph/"`). -/
def pyReplaceList (old new : List Char) : Nat → List Char → List Char
  | 0, s => s
  | _ + 1, [] => []
  | fuel + 1, c :: rest =>
    if old ≠ [] ∧ pyStartsWithList (c :: rest) old then
      new ++ pyReplaceList old new fuel ((c :: rest).drop old.length)
    else c :: pyReplaceList old new fuel rest

/-- Model of Python `str.replace(old, new)` on strings. -/
def pyReplace (s old new : String) : String :=
  String.mk (pyReplaceList old.toList new.toList s.toList.length s.toList)

/-- ASCII whitespace, as stripped by Python `str.strip()` (the identities the
program strips never contain the rarer whitespace code points). -/
def pySpace (c : Char) : Bool :=
  c = ' ' || c = '\t' || c = '\n' || c = '\r'

/-- Model of Python `str.strip()`: drop whitespace from both ends. -/
def pyStrip (s : String) : String :=
  String.mk
    (((s.toList.dropWhile pySpace).reverse.dropWhile pySpace).reverse)

/-- Embeds the `LLMConfig` dataclass of `ralph.py`. -/
structure LLMConfig where
  provider : String
  model : String
  apiKey : String
  ollamaUrl : String
deriving DecidableEq

/-- Outcome of one provider call: a returned output string, or a raised
exception (`err`). -/
inductive ChatOutcome where
  | ok (output : String)
  | err
deriving DecidableEq

/-- Embeds `RalphLLMClient.detect_provider`: a pinned (non-`"auto"`) provider
is returned verbatim with no probing; otherwise the probes are tried in the
fixed order ollama, claude, amp and the first success wins; `none` models the
`No LLM provider available` exception. -/
def detect_provider (config : LLMConfig)
    (ollama_ok claude_ok amp_ok : Bool) : Option String :=
  if config.provider ≠ "auto" then some config.provider
  else if ollama_ok then some "ollama"
  else if claude_ok then some "claude"
  else if amp_ok then some "amp"
  else none

/-- Embeds the model-name matching of `RalphLLMClient._check_ollama`, given
the list of model names returned by the service: exact match, match with a
`:latest` suffix appended, or any listed name starting with `model ++ ":"`. -/
def ollama_model_match (model : String) (model_names : List String) : Bool :=
  if model_names.contains model then true
  else if model_names.contains (model ++ ":latest") then true
  else model_names.any (fun name => pyStartsWith name (model ++ ":"))

/-- Embeds the provider dispatch of `RalphLLMClient.chat`: the three known
providers delegate to their backend call (abstracted by `backendOutcome`);
any other provider name raises `Unknown provider` (modelled as `err`). -/
def chat_dispatch (provider : String) (backendOutcome : ChatOutcome) :
    ChatOutcome :=
  if provider = "ollama" then backendOutcome
  else if provider = "claude" then backendOutcome
  else if provider = "amp" then backendOutcome
  else ChatOutcome.err

/-- The literal completion marker searched for in each iteration's output. -/
def completion_marker : String := "<promise>COMPLETE</promise>"

/-- Embeds the check `'<promise>COMPLETE</promise>' in output` of
`RalphOrchestrator.run_iteration` (Python substring containment). -/
def isComplete (output : String) : Bool :=
  pyContains output completion_marker

/-- Whether an iteration's outcome makes the loop stop with success: a raised
exception never does, an output does iff it contains the marker. -/
def completes : ChatOutcome → Bool
  | ChatOutcome.ok output => isComplete output
  | ChatOutcome.err => false

/-- Observable events of a run: the chat call of iteration `i`, and the
pacing delay `time.sleep(seconds)`. -/
inductive Event where
  | chat (i : Nat)
  | sleep (seconds : Nat)
deriving DecidableEq

/-- Embeds the `for i in range(1, max_iterations + 1)` loop body of
`RalphOrchestrator.run`, starting at iteration `i` with `n` iterations left:
each pass performs the chat call; on an output containing the marker it
returns exit code 0 at once; otherwise (including any caught exception) it
sleeps 2 seconds and continues; an exhausted loop returns exit code 1. -/
def run_loop (chat : Nat → ChatOutcome) : Nat → Nat → Nat × List Event
  | _, 0 => (1, [])
  | i, n + 1 =>
    match chat i with
    | ChatOutcome.ok output =>
      if isComplete output then (0, [Event.chat i])
      else
        ((run_loop chat (i + 1) n).1,
          Event.chat i :: Event.sleep 2 :: (run_loop chat (i + 1) n).2)
    | ChatOutcome.err =>
      ((run_loop chat (i + 1) n).1,
        Event.chat i :: Event.sleep 2 :: (run_loop chat (i + 1) n).2)

/-- Embeds `RalphOrchestrator.run` after setup: provider detection, then the
iteration loop; a failed detection returns exit code 1 with no chat calls. -/
def ralph_run (cfg : LLMConfig) (ollama_ok claude_ok amp_ok : Bool)
    (backend : Nat → ChatOutcome) (max_iterations : Nat) : Nat × List Event :=
  match detect_provider cfg ollama_ok claude_ok amp_ok with
  | none => (1, [])
  | some p =>
    run_loop (fun i => chat_dispatch p (backend i)) 1 max_iterations

/-- How the config file presents itself to `load_config`: absent, invalid
JSON, or parsed JSON whose `llm` object carries the four optional fields. -/
inductive ConfigSource where
  | absent
  | invalidJson
  | valid (provider model apiKey ollamaUrl : Option String)
deriving DecidableEq

/-- Embeds `load_config`: parsed JSON yields the four fields with their
defaults and no warning; a missing file yields the default config with a
warning (`Bool` flag); invalid JSON calls `sys.exit(1)`, modelled as
`Except.error 1`. -/
def load_config : ConfigSource → Except Nat (LLMConfig × Bool)
  | ConfigSource.valid p m k u =>
    Except.ok (⟨p.getD "auto", m.getD "llama3.1", k.getD "",
      u.getD "http://localhost:11434"⟩, false)
  | ConfigSource.absent =>
    Except.ok (⟨"auto", "llama3.1", "", "http://localhost:11434"⟩, true)
  | ConfigSource.invalidJson => Except.error 1

/-- Embeds `main` up to observable loop behaviour: load the config (an
`Except.error` exits the process with that code before any loop state), then
detect the provider and run the loop. -/
def mainRun (src : ConfigSource) (ollama_ok claude_ok amp_ok : Bool)
    (backend : Nat → ChatOutcome) (max_iterations : Nat) : Nat × List Event :=
  match load_config src with
  | Except.error c => (c, [])
  | Except.ok (cfg, _) =>
    ralph_run cfg ollama_ok claude_ok amp_ok backend max_iterations

/-- The run-directory file state touched by `RalphOrchestrator` setup:
`prd` is the `branchName` field of `prd.json` when that file exists (the
field defaulting to `""`), `lastBranch` the raw content of `.last-branch`
when it exists, `progress` the content of `progress.txt` when it exists, and
`archive` the list of archive folders created, each recording its name, the
`prd.json` copy and the `progress.txt` copy placed in it. -/
structure RalphState where
  prd : Option String
  lastBranch : Option String
  progress : Option String
  archive : List (String × Option String × Option String)
deriving DecidableEq

/-- The progress-log header written by `init_progress_file`. -/
def progress_header (now : String) : String :=
  "# Ralph Progress Log\n" ++ "Started: " ++ now ++ "\n" ++ "---\n"

/-- Embeds `RalphOrchestrator.init_progress_file`: truncate `progress.txt`
and write the fresh header. -/
def init_progress_file (now : String) (s : RalphState) : RalphState :=
  { s with progress := some (progress_header now) }

/-- Embeds `RalphOrchestrator.archive_previous_run`: a no-op unless both
`prd.json` and `.last-branch` exist; otherwise read both identities (the
marker stripped of surrounding whitespace) and, when both are non-empty and
differ, create `archive/{date}-{last_branch.replace('ralph/','')}`, copy
`prd.json` and (when present) `progress.txt` into it, and reset the progress
file. -/
def archive_previous_run (date_str now : String) (s : RalphState) :
    RalphState :=
  match s.prd, s.lastBranch with
  | some current_branch, some lastRaw =>
    let last_branch := pyStrip lastRaw
    if current_branch ≠ "" ∧ last_branch ≠ "" ∧
        current_branch ≠ last_branch then
      let folder_name := pyReplace last_branch "ralph/" ""
      let archive_folder := date_str ++ "-" ++ folder_name
      init_progress_file now
        { s with archive :=
            s.archive ++ [(archive_folder, s.prd, s.progress)] }
    else s
  | _, _ => s

/-- Embeds `RalphOrchestrator.track_current_branch`: when `prd.json` exists
and its `branchName` is non-empty, overwrite `.last-branch` with it. -/
def track_current_branch (s : RalphState) : RalphState :=
  match s.prd with
  | some current_branch =>
    if current_branch ≠ "" then { s with lastBranch := some current_branch }
    else s
  | none => s

/-- Embeds the setup phase of `RalphOrchestrator.run`: archive on branch
change, track the current branch, then create the progress file when it does
not exist. -/
def setup (date_str now : String) (s : RalphState) : RalphState :=
  let s1 := archive_previous_run date_str now s
  let s2 := track_current_branch s1
  if s2.progress = none then init_progress_file now s2 else s2

/-- The archival guard of `archive_previous_run` as a boolean: both files
exist, both identities are non-empty and they differ. -/
def archCond (s : RalphState) : Bool :=
  match s.prd, s.lastBranch with
  | some current_branch, some lastRaw =>
    current_branch ≠ "" && pyStrip lastRaw ≠ "" &&
      current_branch ≠ pyStrip lastRaw
  | _, _ => false

/-- The trace of an exhausted run: chat then pacing delay for each of `n`
iterations starting at index `i`. -/
def exhaustTrace : Nat → Nat → List Event
  | _, 0 => []
  | i, n + 1 => Event.chat i :: Event.sleep 2 :: exhaustTrace (i + 1) n

/-- Number of chat calls recorded in a trace. -/
def countChats : List Event → Nat
  | [] => 0
  | Event.chat _ :: rest => countChats rest + 1
  | Event.sleep _ :: rest => countChats rest

/-- The archive folder-name transformation as the claims word it: the last
task identity with the known prefix `"ralph/"` stripped, i.e. removed only
when it occurs as a leading prefix. Stated from the claim's words, for
comparison with the code's `pyReplace` (which removes every occurrence). -/
def claimPrefixStripped (last_branch : String) : String :=
  if pyStartsWith last_branch "ralph/" then
    String.mk (last_branch.toList.drop "ralph/".toList.length)
  else last_branch

example : isComplete "abc <promise>COMPLETE</promise> xyz" = true := by decide
example : isComplete "abc" = false := by decide
example : ollama_model_match "llama3.1" ["llama3.1:8b"] = true := by decide
example : ollama_model_match "llama3.1" ["codellama3.1"] = false := by decide
example : pyReplace "ralph/taskA" "ralph/" "" = "taskA" := by decide
example : pyReplace "ralph/ralph/x" "ralph/" "" = "x" := by decide
example : pyReplace "aralph/b" "ralph/" "" = "ab" := by decide
example : pyStrip " ralph/x\n" = "ralph/x" := by decide
example :
    run_loop (fun _ => ChatOutcome.ok "a") 1 2 =
      (1, [Event.chat 1, Event.sleep 2, Event.chat 2, Event.sleep 2]) := by
  decide

/-- A loop in which every remaining iteration is non-completing (plain
output without the marker, or a caught exception) runs all of them, sleeping
after each one, and exits with code 1. -/
theorem run_loop_exhaust (chat : Nat → ChatOutcome) :
    ∀ n i : Nat, (∀ j, i ≤ j → j < i + n → completes (chat j) = false) →
    run_loop chat i n = (1, exhaustTrace i n) := by
  intro n
  induction n with
  | zero => intro i _; rfl
  | succ n ih =>
    intro i h
    have hi : completes (chat i) = false := h i (Nat.le_refl i) (by omega)
    have htail : run_loop chat (i + 1) n = (1, exhaustTrace (i + 1) n) :=
      ih (i + 1) (fun j hj1 hj2 => h j (by omega) (by omega))
    cases hc : chat i with
    | ok output =>
      have hno : isComplete output = false := by
        rw [hc] at hi
        exact hi
      simp [run_loop, hc, hno, htail, exhaustTrace]
    | err =>
      simp [run_loop, hc, htail, exhaustTrace]

/-- The exhaustion trace records exactly one chat call per iteration. -/
theorem exhaustTrace_countChats : ∀ n i : Nat, countChats (exhaustTrace i n) = n := by
  intro n
  induction n with
  | zero => intro i; rfl
  | succ n ih =>
    intro i
    simp [exhaustTrace, countChats, ih (i + 1)]

/-- If the outcome of some in-range iteration `k` is an output containing the
marker, the loop exits with code 0 and performs no chat call for any
iteration beyond `k`. -/
theorem run_loop_stops (chat : Nat → ChatOutcome) :
    ∀ (n i k : Nat) (out : String), i ≤ k → k < i + n →
    chat k = ChatOutcome.ok out → isComplete out = true →
    (run_loop chat i n).1 = 0 ∧
      ∀ j, k < j → Event.chat j ∉ (run_loop chat i n).2 := by
  intro n
  induction n with
  | zero => intro i k out h1 h2 _ _; omega
  | succ n ih =>
    intro i k out hik hkn hok hcomp
    by_cases heq : i = k
    · subst heq
      refine ⟨?_, ?_⟩
      · simp [run_loop, hok, hcomp]
      · intro j hj
        simp [run_loop, hok, hcomp]
        omega
    · have hlt : i < k := Nat.lt_of_le_of_ne hik heq
      cases hc : chat i with
      | ok output =>
        by_cases hco : isComplete output = true
        · refine ⟨?_, ?_⟩
          · simp [run_loop, hc, hco]
          · intro j hj
            simp [run_loop, hc, hco]
            omega
        · have htail := ih (i + 1) k out (by omega) (by omega) hok hcomp
          refine ⟨?_, ?_⟩
          · simp [run_loop, hc, hco, htail.1]
          · intro j hj
            have := htail.2 j hj
            simp [run_loop, hc, hco, this]
            omega
      | err =>
        have htail := ih (i + 1) k out (by omega) (by omega) hok hcomp
        refine ⟨?_, ?_⟩
        · simp [run_loop, hc, htail.1]
        · intro j hj
          have := htail.2 j hj
          simp [run_loop, hc, this]
          omega

/-- If every iteration strictly before `k` is non-completing and `k` is in
range, the loop does perform the chat call of iteration `k`. -/
theorem run_loop_reaches (chat : Nat → ChatOutcome) :
    ∀ n i k : Nat, i ≤ k → k < i + n →
    (∀ j, i ≤ j → j < k → completes (chat j) = false) →
    Event.chat k ∈ (run_loop chat i n).2 := by
  intro n
  induction n with
  | zero => intro i k h1 h2 _; omega
  | succ n ih =>
    intro i k hik hkn hprev
    by_cases heq : i = k
    · subst heq
      cases hc : chat i with
      | ok output =>
        by_cases hco : isComplete output = true
        · simp [run_loop, hc, hco]
        · simp [run_loop, hc, hco]
      | err => simp [run_loop, hc]
    · have hlt : i < k := Nat.lt_of_le_of_ne hik heq
      have hi : completes (chat i) = false := hprev i (Nat.le_refl i) hlt
      have htail : Event.chat k ∈ (run_loop chat (i + 1) n).2 :=
        ih (i + 1) k (by omega) (by omega)
          (fun j hj1 hj2 => hprev j (by omega) hj2)
      cases hc : chat i with
      | ok output =>
        have hno : isComplete output = false := by
          rw [hc] at hi
          exact hi
        simp [run_loop, hc, hno]
        right
        exact htail
      | err =>
        simp [run_loop, hc]
        right
        exact htail

/-- `track_current_branch` never touches the progress file. -/
theorem track_progress_eq (s : RalphState) :
    (track_current_branch s).progress = s.progress := by
  unfold track_current_branch
  cases s.prd with
  | none => rfl
  | some cur => by_cases h : cur ≠ "" <;> simp [h]

/-- `track_current_branch` never touches the archive. -/
theorem track_archive_eq (s : RalphState) :
    (track_current_branch s).archive = s.archive := by
  unfold track_current_branch
  cases s.prd with
  | none => rfl
  | some cur => by_cases h : cur ≠ "" <;> simp [h]

/-- The archival guard holds exactly when the two identities can be read off
and are non-empty and different. -/
theorem archCond_true_iff (s : RalphState) :
    archCond s = true ↔
      ∃ cur lastRaw, s.prd = some cur ∧ s.lastBranch = some lastRaw ∧
        cur ≠ "" ∧ pyStrip lastRaw ≠ "" ∧ cur ≠ pyStrip lastRaw := by
  unfold archCond
  cases hp : s.prd with
  | none => simp
  | some cur =>
    cases hl : s.lastBranch with
    | none => simp
    | some lastRaw =>
      simp [Bool.and_eq_true, decide_eq_true_eq, and_assoc]

/-- When the archival guard is false, `archive_previous_run` is a no-op. -/
theorem archive_noop (d t : String) (s : RalphState)
    (h : archCond s = false) : archive_previous_run d t s = s := by
  unfold archive_previous_run
  cases hp : s.prd with
  | none => rfl
  | some cur =>
    cases hl : s.lastBranch with
    | none => rfl
    | some lastRaw =>
      dsimp only
      rw [if_neg]
      intro hcond
      have htrue : archCond s = true :=
        (archCond_true_iff s).mpr
          ⟨cur, lastRaw, hp, hl, hcond.1, hcond.2.1, hcond.2.2⟩
      rw [h] at htrue
      exact Bool.noConfusion htrue

/-- When both files exist and both identities are non-empty and differ,
`archive_previous_run` appends exactly one archive entry, named from the
previous identity with every occurrence of `"ralph/"` removed, holding the
copies of `prd.json` and `progress.txt`, and resets the progress file. -/
theorem archive_fires (d t : String) (s : RalphState) (cur lastRaw : String)
    (hp : s.prd = some cur) (hl : s.lastBranch = some lastRaw)
    (h1 : cur ≠ "") (h2 : pyStrip lastRaw ≠ "")
    (h3 : cur ≠ pyStrip lastRaw) :
    archive_previous_run d t s =
      { s with
        archive := s.archive ++
          [(d ++ "-" ++ pyReplace (pyStrip lastRaw) "ralph/" "",
            some cur, s.progress)],
        progress := some (progress_header t) } := by
  unfold archive_previous_run
  rw [hp, hl]
  dsimp only
  rw [if_pos ⟨h1, h2, h3⟩]
  simp [init_progress_file, hp]

/-- The final setup step (`init_progress_file` when the file is absent)
leaves the progress content as the header exactly when it was absent. -/
theorem ensure_progress_eq (t : String) (s : RalphState) :
    (if s.progress = none then init_progress_file t s else s).progress =
      if s.progress.isNone then some (progress_header t)
      else s.progress := by
  cases hp : s.progress <;> simp [hp, init_progress_file]

/-- The final setup step never touches the archive. -/
theorem ensure_archive_eq (t : String) (s : RalphState) :
    (if s.progress = none then init_progress_file t s else s).archive =
      s.archive := by
  cases hp : s.progress <;> simp [hp, init_progress_file]

/-- The progress file after setup: reset to a fresh header exactly when the
archival guard fired or the file was absent, otherwise untouched. -/
theorem setup_progress_eq (d t : String) (s : RalphState) :
    (setup d t s).progress =
      if archCond s || s.progress.isNone then some (progress_header t)
      else s.progress := by
  unfold setup
  dsimp only
  rw [ensure_progress_eq, track_progress_eq]
  cases hac : archCond s with
  | true =>
    rcases (archCond_true_iff s).mp hac with
      ⟨cur, lastRaw, hp, hl, h1, h2, h3⟩
    rw [archive_fires d t s cur lastRaw hp hl h1 h2 h3]
    simp
  | false =>
    rw [archive_noop d t s hac]
    simp

/-- Setup creates at most one archive entry. -/
theorem setup_archive_le (d t : String) (s : RalphState) :
    (setup d t s).archive.length ≤ s.archive.length + 1 := by
  unfold setup
  dsimp only
  rw [ensure_archive_eq, track_archive_eq]
  cases hac : archCond s with
  | true =>
    rcases (archCond_true_iff s).mp hac with
      ⟨cur, lastRaw, hp, hl, h1, h2, h3⟩
    rw [archive_fires d t s cur lastRaw hp hl h1 h2 h3]
    simp
  | false =>
    rw [archive_noop d t s hac]
    simp

/-- C1: for every run with `maxIterations = N`, if the chat outcome of
iteration `k` (`1 ≤ k ≤ N`) is an output containing the literal substring
`<promise>COMPLETE</promise>`, the run exits with code 0 and no chat call of
any iteration beyond `k` ever occurs. -/
theorem c1_completion_stops (cfg : LLMConfig)
    (ollama_ok claude_ok amp_ok : Bool) (backend : Nat → ChatOutcome)
    (N k : Nat) (p out : String)
    (hdet : detect_provider cfg ollama_ok claude_ok amp_ok = some p)
    (h1 : 1 ≤ k) (hN : k ≤ N)
    (hok : chat_dispatch p (backend k) = ChatOutcome.ok out)
    (hcomp : isComplete out = true) :
    (ralph_run cfg ollama_ok claude_ok amp_ok backend N).1 = 0 ∧
      ∀ j, k < j →
        Event.chat j ∉
          (ralph_run cfg ollama_ok claude_ok amp_ok backend N).2 := by
  unfold ralph_run
  rw [hdet]
  dsimp only
  exact run_loop_stops _ N 1 k out h1 (by omega) hok hcomp

/-- Witness for C1: ollama selected, the marker appears at iteration 2 of 3;
the run exits 0 and iteration 3 never performs a chat call. -/
theorem c1_completion_stops_witness :
    (ralph_run (LLMConfig.mk "auto" "llama3.1" "" "u") true false false
        (fun i => if i = 2 then
            ChatOutcome.ok "done <promise>COMPLETE</promise>"
          else ChatOutcome.ok "still working") 3).1 = 0 ∧
      ∀ j, 2 < j →
        Event.chat j ∉
          (ralph_run (LLMConfig.mk "auto" "llama3.1" "" "u") true false false
            (fun i => if i = 2 then
                ChatOutcome.ok "done <promise>COMPLETE</promise>"
              else ChatOutcome.ok "still working") 3).2 :=
  c1_completion_stops (LLMConfig.mk "auto" "llama3.1" "" "u") true false false
    (fun i => if i = 2 then ChatOutcome.ok "done <promise>COMPLETE</promise>"
      else ChatOutcome.ok "still working")
    3 2 "ollama" "done <promise>COMPLETE</promise>"
    (by decide) (by decide) (by decide) (by decide) (by decide)

/-- C2 counterexample: with `maxIterations = 1` and no marker in the output,
the code does sleep after the final iteration — the trace is a chat call
followed by the 2-unit pacing delay, not the delay-free trace the claim
predicts. -/
theorem c2_counterexample :
    ralph_run (LLMConfig.mk "auto" "llama3.1" "" "u") true false false
        (fun _ => ChatOutcome.ok "no marker here") 1 =
      (1, [Event.chat 1, Event.sleep 2]) ∧
    [Event.chat 1, Event.sleep 2] ≠ [Event.chat 1] := by
  decide

/-- C2 (amended): a run of `N` iterations none of which completes performs
exactly `N` chat calls, exits with code 1, and sleeps the fixed 2-unit pacing
delay after every iteration — including the final one. -/
theorem c2_exhaustion (cfg : LLMConfig) (ollama_ok claude_ok amp_ok : Bool)
    (backend : Nat → ChatOutcome) (N : Nat) (p : String)
    (hdet : detect_provider cfg ollama_ok claude_ok amp_ok = some p)
    (h : ∀ i, 1 ≤ i → i ≤ N →
      completes (chat_dispatch p (backend i)) = false) :
    ralph_run cfg ollama_ok claude_ok amp_ok backend N =
      (1, exhaustTrace 1 N) ∧
    countChats (ralph_run cfg ollama_ok claude_ok amp_ok backend N).2 = N := by
  have hrun : ralph_run cfg ollama_ok claude_ok amp_ok backend N =
      (1, exhaustTrace 1 N) := by
    unfold ralph_run
    rw [hdet]
    dsimp only
    exact run_loop_exhaust _ N 1 (fun j hj1 hj2 => h j hj1 (by omega))
  refine ⟨hrun, ?_⟩
  rw [hrun]
  exact exhaustTrace_countChats N 1

/-- Witness for C2 (amended): two markerless iterations give two chat calls,
each followed by the pacing delay, and exit code 1. -/
theorem c2_exhaustion_witness :
    ralph_run (LLMConfig.mk "auto" "llama3.1" "" "u") true false false
        (fun _ => ChatOutcome.ok "working") 2 = (1, exhaustTrace 1 2) ∧
    countChats (ralph_run (LLMConfig.mk "auto" "llama3.1" "" "u") true false
        false (fun _ => ChatOutcome.ok "working") 2).2 = 2 :=
  c2_exhaustion (LLMConfig.mk "auto" "llama3.1" "" "u") true false false
    (fun _ => ChatOutcome.ok "working") 2 "ollama" (by decide)
    (fun i _ _ =>
      (by decide :
        completes (chat_dispatch "ollama" (ChatOutcome.ok "working")) =
          false))

/-- C3: if every iteration before `k` is non-completing and the provider call
of iteration `k < N` raises an error, the error is contained at iteration
granularity: the chat call of iteration `k + 1` still occurs. -/
theorem c3_error_continues (cfg : LLMConfig)
    (ollama_ok claude_ok amp_ok : Bool) (backend : Nat → ChatOutcome)
    (N k : Nat) (p : String)
    (hdet : detect_provider cfg ollama_ok claude_ok amp_ok = some p)
    (h1 : 1 ≤ k) (hkN : k < N)
    (herr : chat_dispatch p (backend k) = ChatOutcome.err)
    (hprev : ∀ j, 1 ≤ j → j < k →
      completes (chat_dispatch p (backend j)) = false) :
    Event.chat (k + 1) ∈
      (ralph_run cfg ollama_ok claude_ok amp_ok backend N).2 := by
  unfold ralph_run
  rw [hdet]
  dsimp only
  apply run_loop_reaches _ N 1 (k + 1) (by omega) (by omega)
  intro j hj1 hj2
  by_cases hjk : j = k
  · subst hjk
    simp [completes, herr]
  · exact hprev j hj1 (by omega)

/-- Witness for C3: the provider call errors at iteration 1 of 2, and
iteration 2 still performs its chat call. -/
theorem c3_error_continues_witness :
    Event.chat 2 ∈
      (ralph_run (LLMConfig.mk "auto" "llama3.1" "" "u") true false false
        (fun i => if i = 1 then ChatOutcome.err
          else ChatOutcome.ok "working") 2).2 :=
  c3_error_continues (LLMConfig.mk "auto" "llama3.1" "" "u") true false false
    (fun i => if i = 1 then ChatOutcome.err else ChatOutcome.ok "working")
    2 1 "ollama" (by decide) (by decide) (by decide) (by decide)
    (fun j hj1 hj2 => absurd (Nat.lt_of_le_of_lt hj1 hj2) (by decide))

/-- C4 counterexample: for previous identity `"ralph/ralph/x"` the code names
the folder from `last_branch.replace('ralph/','')`, removing every
occurrence — `"2026-10-12-x"` — whereas stripping only the leading `"ralph/"`
prefix, as the claim states, would give `"2026-10-12-ralph/x"`. -/
theorem c4_counterexample :
    (archive_previous_run "2026-10-12" "T"
        (RalphState.mk (some "ralph/y") (some "ralph/ralph/x")
          (some "p") [])).archive =
      [("2026-10-12-x", some "ralph/y", some "p")] ∧
    claimPrefixStripped "ralph/ralph/x" = "ralph/x" ∧
    "2026-10-12-x" ≠ "2026-10-12-" ++ claimPrefixStripped "ralph/ralph/x" := by
  decide

/-- C4 (amended): `archive_previous_run` is a no-op unless `prd.json` and
`.last-branch` both exist with non-empty, differing identities; when it
fires it creates `{date}-{last identity with every occurrence of "ralph/"
removed}`, records the copies of `prd.json` and (when present)
`progress.txt`, and resets the progress log; setup archives at most once. -/
theorem c4_archive_behaviour (d t : String) (s : RalphState) :
    (archCond s = false → archive_previous_run d t s = s) ∧
    (∀ cur lastRaw, s.prd = some cur → s.lastBranch = some lastRaw →
      cur ≠ "" → pyStrip lastRaw ≠ "" → cur ≠ pyStrip lastRaw →
      archive_previous_run d t s =
        { s with
          archive := s.archive ++
            [(d ++ "-" ++ pyReplace (pyStrip lastRaw) "ralph/" "",
              some cur, s.progress)],
          progress := some (progress_header t) }) ∧
    (setup d t s).archive.length ≤ s.archive.length + 1 :=
  ⟨fun h => archive_noop d t s h,
   fun cur lastRaw hp hl h1 h2 h3 =>
     archive_fires d t s cur lastRaw hp hl h1 h2 h3,
   setup_archive_le d t s⟩

/-- Witness for C4 (amended): a state missing the run marker is untouched,
and a genuine identity change appends exactly the expected entry. -/
theorem c4_archive_behaviour_witness :
    archive_previous_run "2026-01-01" "T"
        (RalphState.mk (some "x") none (some "p") []) =
      RalphState.mk (some "x") none (some "p") [] ∧
    archive_previous_run "2026-01-01" "T"
        (RalphState.mk (some "ralph/b") (some "ralph/a") (some "p") []) =
      { RalphState.mk (some "ralph/b") (some "ralph/a") (some "p") [] with
        archive := [] ++
          [("2026-01-01" ++ "-" ++ pyReplace (pyStrip "ralph/a") "ralph/" "",
            some "ralph/b", some "p")],
        progress := some (progress_header "T") } :=
  ⟨(c4_archive_behaviour "2026-01-01" "T"
      (RalphState.mk (some "x") none (some "p") [])).1 (by decide),
   (c4_archive_behaviour "2026-01-01" "T"
      (RalphState.mk (some "ralph/b") (some "ralph/a") (some "p") [])).2.1
     "ralph/b" "ralph/a" rfl rfl (by decide) (by decide) (by decide)⟩

/-- C5 counterexample: with marker `"ralph/taskA"` and descriptor identity
`"ralph/taskB"`, the archive folder is named from the *previous* identity —
`"2026-10-12-taskA"` — not the `"2026-10-12-taskB"` the claim states. -/
theorem c5_counterexample :
    (archive_previous_run "2026-10-12" "T"
        (RalphState.mk (some "ralph/taskB") (some "ralph/taskA")
          (some "OLDLOG") [])).archive =
      [("2026-10-12-taskA", some "ralph/taskB", some "OLDLOG")] ∧
    "2026-10-12-taskA" ≠ "2026-10-12-taskB" := by
  decide

/-- C5 (amended): given marker `"ralph/taskA"` and descriptor identity
`"ralph/taskB"`, archival creates the folder `<today>-taskA` (named from the
previous identity, `"ralph/"` removed) containing copies of `prd.json` and
`progress.txt`, and the progress log is reset afterward. -/
theorem c5_archive_scenario (d t oldLog : String) :
    archive_previous_run d t
        (RalphState.mk (some "ralph/taskB") (some "ralph/taskA")
          (some oldLog) []) =
      RalphState.mk (some "ralph/taskB") (some "ralph/taskA")
        (some (progress_header t))
        [(d ++ "-" ++ "taskA", some "ralph/taskB", some oldLog)] := by
  have h := archive_fires d t
    (RalphState.mk (some "ralph/taskB") (some "ralph/taskA") (some oldLog) [])
    "ralph/taskB" "ralph/taskA" rfl rfl (by decide) (by decide) (by decide)
  rw [h]
  have hf : pyReplace (pyStrip "ralph/taskA") "ralph/" "" = "taskA" := by
    decide
  rw [hf]
  simp

/-- C6 counterexample: with no prior run marker but an existing progress log,
setup leaves the log untouched, whereas the claim's condition (a) says it is
reset. -/
theorem c6_counterexample :
    (setup "2026-10-12" "T"
        (RalphState.mk (some "x") none (some "old") [])).progress =
      some "old" ∧
    (RalphState.mk (some "x") none (some "old") []).lastBranch = none ∧
    some "old" ≠ some (progress_header "T") := by
  decide

/-- C6 (amended): setup resets the progress log (fresh header with a
timestamp) exactly when the archival guard fires or the progress file does
not exist; in every other setup the log is left untouched. -/
theorem c6_progress_reset (d t : String) (s : RalphState) :
    (setup d t s).progress =
      if archCond s || s.progress.isNone then some (progress_header t)
      else s.progress :=
  setup_progress_eq d t s

/-- C7: with `provider = "auto"` and all three probes failing, detection
reports no backend available and the run exits with code 1 without a single
chat call. -/
theorem c7_no_backend (model apiKey url : String)
    (backend : Nat → ChatOutcome) (N : Nat) :
    detect_provider (LLMConfig.mk "auto" model apiKey url)
        false false false = none ∧
    ralph_run (LLMConfig.mk "auto" model apiKey url) false false false
        backend N = (1, []) ∧
    countChats (ralph_run (LLMConfig.mk "auto" model apiKey url)
        false false false backend N).2 = 0 := by
  refine ⟨?_, ?_, ?_⟩ <;> simp [detect_provider, ralph_run, countChats]

/-- C8: with configured model `"llama3.1"`, the ollama probe's matching
accepts a listing containing `"llama3.1"`, `"llama3.1:latest"` or
`"llama3.1:8b"`, and rejects listings holding only `"llama3"` or only
`"codellama3.1"`. -/
theorem c8_model_matching :
    (∀ names : List String, "llama3.1" ∈ names →
      ollama_model_match "llama3.1" names = true) ∧
    (∀ names : List String, "llama3.1:latest" ∈ names →
      ollama_model_match "llama3.1" names = true) ∧
    (∀ names : List String, "llama3.1:8b" ∈ names →
      ollama_model_match "llama3.1" names = true) ∧
    ollama_model_match "llama3.1" ["llama3"] = false ∧
    ollama_model_match "llama3.1" ["codellama3.1"] = false := by
  refine ⟨?_, ?_, ?_, by decide, by decide⟩
  · intro names h
    simp [ollama_model_match]
    exact Or.inl h
  · intro names h
    simp [ollama_model_match]
    exact Or.inr (Or.inl h)
  · intro names h
    simp [ollama_model_match]
    exact Or.inr (Or.inr ⟨"llama3.1:8b", h, by decide⟩)

/-- Witness for C8: concrete listings for each accepting clause. -/
theorem c8_model_matching_witness :
    ollama_model_match "llama3.1" ["mistral", "llama3.1"] = true ∧
    ollama_model_match "llama3.1" ["llama3.1:latest"] = true ∧
    ollama_model_match "llama3.1" ["llama3.1:8b"] = true :=
  ⟨c8_model_matching.1 ["mistral", "llama3.1"] (by decide),
   c8_model_matching.2.1 ["llama3.1:latest"] (by decide),
   c8_model_matching.2.2.1 ["llama3.1:8b"] (by decide)⟩

/-- C9: a missing config file yields the documented defaults with a non-fatal
warning and the run proceeds with them; malformed JSON exits the process with
code 1 immediately, with no loop state (zero events). -/
theorem c9_config_loading (ollama_ok claude_ok amp_ok : Bool)
    (backend : Nat → ChatOutcome) (N : Nat) :
    load_config ConfigSource.absent =
      Except.ok
        (LLMConfig.mk "auto" "llama3.1" "" "http://localhost:11434", true) ∧
    load_config ConfigSource.invalidJson = Except.error 1 ∧
    mainRun ConfigSource.absent ollama_ok claude_ok amp_ok backend N =
      ralph_run (LLMConfig.mk "auto" "llama3.1" "" "http://localhost:11434")
        ollama_ok claude_ok amp_ok backend N ∧
    mainRun ConfigSource.invalidJson ollama_ok claude_ok amp_ok backend N =
      (1, []) :=
  ⟨rfl, rfl, rfl, rfl⟩

/-- C10: pinning the provider to a name outside {ollama, claude, amp}
succeeds at detection (the name is returned verbatim), but every chat call
then raises `Unknown provider`, which the loop catches per iteration, so the
run performs all `N` iterations and exits with code 1. -/
theorem c10_unknown_provider (p model apiKey url : String)
    (ollama_ok claude_ok amp_ok : Bool) (backend : Nat → ChatOutcome)
    (N : Nat) (hauto : p ≠ "auto") (h1 : p ≠ "ollama") (h2 : p ≠ "claude")
    (h3 : p ≠ "amp") :
    detect_provider (LLMConfig.mk p model apiKey url)
        ollama_ok claude_ok amp_ok = some p ∧
    ralph_run (LLMConfig.mk p model apiKey url) ollama_ok claude_ok amp_ok
        backend N = (1, exhaustTrace 1 N) ∧
    countChats (ralph_run (LLMConfig.mk p model apiKey url) ollama_ok
        claude_ok amp_ok backend N).2 = N := by
  have hdet : detect_provider (LLMConfig.mk p model apiKey url)
      ollama_ok claude_ok amp_ok = some p := by
    unfold detect_provider
    rw [if_pos hauto]
  have hdisp : ∀ x, chat_dispatch p x = ChatOutcome.err := by
    intro x
    unfold chat_dispatch
    rw [if_neg h1, if_neg h2, if_neg h3]
  have hrun : ralph_run (LLMConfig.mk p model apiKey url) ollama_ok claude_ok
      amp_ok backend N = (1, exhaustTrace 1 N) := by
    unfold ralph_run
    rw [hdet]
    dsimp only
    exact run_loop_exhaust _ N 1
      (fun j _ _ => by rw [hdisp (backend j)]; rfl)
  refine ⟨hdet, hrun, ?_⟩
  rw [hrun]
  exact exhaustTrace_countChats N 1

/-- Witness for C10: provider pinned to `"gpt4"` runs both of its 2
iterations (each erroring) and exits 1. -/
theorem c10_unknown_provider_witness :
    detect_provider (LLMConfig.mk "gpt4" "m" "" "u") false false false =
      some "gpt4" ∧
    ralph_run (LLMConfig.mk "gpt4" "m" "" "u") false false false
        (fun _ => ChatOutcome.ok "reply") 2 = (1, exhaustTrace 1 2) ∧
    countChats (ralph_run (LLMConfig.mk "gpt4" "m" "" "u") false false false
        (fun _ => ChatOutcome.ok "reply") 2).2 = 2 :=
  c10_unknown_provider "gpt4" "m" "" "u" false false false
    (fun _ => ChatOutcome.ok "reply") 2
    (by decide) (by decide) (by decide) (by decide)
